import Mathlib

/-!
# Verification of the astra_framework agent-execution engine

A shallow embedding, in Lean 4, of the parts of the `astra_framework`
Python code base (directory `astra_framework/`) that the specification's
testable properties talk about:

* `core/state.py`    — `ChatMessage`, `SessionState` (the blackboard);
* `core/models.py`   — `AgentResponse`;
* `core/agent.py`    — `BaseAgent._sync_history_to_state`,
  `BaseAgent._validate_structured_output`, `BaseAgent._get_summary`;
* `core/tool.py`     — `ToolManager.execute_tool`, `ToolManager._execute_function`;
* `agents/parallel_agent.py`, `agents/sequential_agent.py`,
  `agents/loop_agent.py`, `agents/react_agent.py`,
  `agents/dynamic_workflow_agent.py`.

Modelling conventions:

* Python's in-place mutation of `SessionState` becomes explicit state
  passing: an agent's `execute(state)` is a function
  `SessionState → SessionState × …` returning the mutated state.
* A raised Python exception becomes `Except.error msg`; code that cannot
  raise returns a plain value.
* Python values that can flow through `final_content` / tool results /
  the `data` map are embedded as the inductive `Value`; a pydantic
  `BaseModel` instance appears as `Value.modelObj json`, where `json` is
  its `model_dump_json()` serialization.
* `copy.deepcopy` on a `SessionState` is the identity on the embedded
  value: the embedding has value semantics, and the operational content
  of the deep copy — the child receives a state that shares no mutable
  structure with the parent's — is exactly what value semantics gives.
* The observer list `SessionState._observers` is not modelled: observers
  are callables whose effects are external to the state, and the spec
  classifies the notify hook as an optional extension point that is not
  required for correctness (§4.1, §9).
-/

namespace Astra

/-- A Python value as it can appear in `final_content`, tool arguments,
tool results, or `SessionState.data`.  `modelObj json` stands for a
pydantic `BaseModel` instance whose `model_dump_json()` is `json`. -/
inductive Value where
  | str (s : String)
  | int (n : Int)
  | bool (b : Bool)
  | none
  | list (vs : List Value)
  | modelObj (json : String)

mutual

/-- Python `str(v)` for an embedded `Value` (used by
`SequentialAgent._handle_child_response` and `LoopAgent.execute` on
non-`BaseModel` outputs).  Scalar cases follow CPython exactly; the
rendering of list elements is structural and is never inspected by a
claim. -/
def py_str : Value → String
  | .str s => s
  | .int n => toString n
  | .bool b => if b then "True" else "False"
  | .none => "None"
  | .list vs => "[" ++ py_str_list vs ++ "]"
  | .modelObj j => j

/-- Comma-separated rendering of a list of values, for `py_str`. -/
def py_str_list : List Value → String
  | [] => ""
  | [v] => py_str v
  | v :: vs => py_str v ++ ", " ++ py_str_list vs

end

/-- `core/state.py` `ChatMessage`: a dataclass with exactly the two
fields `role` and `content`. -/
structure ChatMessage where
  role : String
  content : String
deriving DecidableEq, Repr

/-- `core/state.py` `SessionState`: session id, ordered message history,
and the free-form `data` blackboard (a Python dict, embedded as an
association list in insertion order). -/
structure SessionState where
  session_id : String
  history : List ChatMessage
  data : List (String × Value)

/-- `SessionState.add_message` (core/state.py:43-47): appends a
`ChatMessage(role, content)` to `history`.  The observer notification it
also performs is external to the state (see the module docstring). -/
def SessionState.add_message (s : SessionState) (role content : String) : SessionState :=
  { s with history := s.history ++ [⟨role, content⟩] }

/-- `copy.deepcopy(state)` as used by `ParallelAgent.execute`
(parallel_agent.py:25).  In the value-semantics embedding a deep copy is
the value itself; what matters is that the child's state is a separate
value from the parent's. -/
def deepcopy (s : SessionState) : SessionState := s

/-- `core/models.py` `AgentResponse`. -/
structure AgentResponse where
  status : String
  final_content : Value
  metadata : Option (List (String × Value))

/-- A child agent's `execute`, for contexts that call it without
catching exceptions (`SequentialAgent`, `LoopAgent`): the child mutates
the state and returns a response. -/
abbrev ChildFn : Type := SessionState → SessionState × AgentResponse

/-- A child agent's `execute`, for `ParallelAgent`, which absorbs
exceptions per branch: `Except.error e` is the child raising `e`. -/
abbrev FallibleChildFn : Type := SessionState → Except String (SessionState × AgentResponse)

/-! ## ParallelAgent (agents/parallel_agent.py) -/

/-- `ParallelAgent` constructor state (agents/parallel_agent.py:16-19). -/
structure ParallelAgent where
  agent_name : String
  children : List FallibleChildFn
  keep_alive_state : Bool

/-- The aggregation loop of `ParallelAgent.execute`
(parallel_agent.py:30-36): an `Exception` entry contributes `None`, any
other entry contributes its `final_content`. -/
def ParallelAgent.aggregate : List (Except String (SessionState × AgentResponse)) → List Value
  | [] => []
  | .error _ :: rest => Value.none :: ParallelAgent.aggregate rest
  | .ok (_, r) :: rest => r.final_content :: ParallelAgent.aggregate rest

/-- What one gathered child outcome contributes to the aggregate list. -/
def ParallelAgent.aggregate_one : Except String (SessionState × AgentResponse) → Value
  | .error _ => Value.none
  | .ok (_, r) => r.final_content

/-- `ParallelAgent.execute` (parallel_agent.py:21-41): every child runs
on `deepcopy state`; `asyncio.gather(…, return_exceptions=True)` keeps
the per-child outcomes in input order; the parent's own state is
returned untouched, and the response is
`AgentResponse(status="success", final_content=aggregated_content)`. -/
def ParallelAgent.execute (a : ParallelAgent) (state : SessionState) :
    SessionState × AgentResponse :=
  let child_responses := a.children.map (fun child => child (deepcopy state))
  (state, ⟨"success", Value.list (ParallelAgent.aggregate child_responses), Option.none⟩)

def c1Child0 : FallibleChildFn := fun st =>
  Except.ok (st.add_message "agent" "zero", ⟨"success", Value.str "r0", Option.none⟩)

def c1Child1 : FallibleChildFn := fun _ =>
  Except.error "boom"

def c1Agent : ParallelAgent := ⟨"par", [c1Child0, c1Child1], false⟩

def c1State : SessionState := ⟨"s", [⟨"user", "go"⟩], [("k", Value.int 7)]⟩

/-! ## SequentialAgent (agents/sequential_agent.py) -/

/-- `SequentialAgent` constructor state (sequential_agent.py:13-16). -/
structure SequentialAgent where
  agent_name : String
  children : List ChildFn
  keep_alive_state : Bool

/-- `SequentialAgent._handle_child_response` (sequential_agent.py:35-50):
a `BaseModel` output is re-serialized (`model_dump_json`) as a
user-role message, any other output is `str(...)`-ed as an agent-role
message; with `keep_alive_state` false the history is cleared first. -/
def handle_child_response (keep_alive_state : Bool) (response : AgentResponse)
    (state : SessionState) : SessionState :=
  let role_content : String × String :=
    match response.final_content with
    | .modelObj j => ("user", j)
    | v => ("agent", py_str v)
  if keep_alive_state then
    state.add_message role_content.1 role_content.2
  else
    SessionState.add_message { state with history := [] } role_content.1 role_content.2

/-- The single message `_handle_child_response` writes for a child
response. -/
def message_of_response (r : AgentResponse) : ChatMessage :=
  match r.final_content with
  | .modelObj j => ⟨"user", j⟩
  | v => ⟨"agent", py_str v⟩

/-- The child loop of `SequentialAgent.execute`
(sequential_agent.py:22-30), with the list of every child response kept
as specification ghost data: the Python code keeps only the running
`final_response`, which is `(run …).2.getLast?`. -/
def SequentialAgent.run (keep_alive_state : Bool) :
    List ChildFn → SessionState → SessionState × List AgentResponse
  | [], state => (state, [])
  | child :: rest, state =>
    let step := child state
    let st2 := handle_child_response keep_alive_state step.2 step.1
    let res := SequentialAgent.run keep_alive_state rest st2
    (res.1, step.2 :: res.2)

/-- `SequentialAgent.execute` (sequential_agent.py:18-33): runs the
children in order on the shared state and returns `final_response` —
the last child's response, or Python `None` (here `Option.none`) when
`children` is empty. -/
def SequentialAgent.execute (a : SequentialAgent) (state : SessionState) :
    SessionState × Option AgentResponse :=
  let res := SequentialAgent.run a.keep_alive_state a.children state
  (res.1, res.2.getLast?)

def c3Child1 : ChildFn := fun st =>
  (st.add_message "agent" "5", ⟨"success", Value.str "5", Option.none⟩)

def c3Child2 : ChildFn := fun st =>
  (st, ⟨"success", Value.modelObj "\x7b\"approved\": true\x7d", Option.none⟩)

def c3Agent : SequentialAgent := ⟨"seq", [c3Child1, c3Child2], false⟩

def c3State : SessionState := ⟨"s3", [⟨"user", "compute 2+3"⟩], []⟩

/-! ## LoopAgent (agents/loop_agent.py) -/

/-- `LoopAgent` constructor state (loop_agent.py:15-24). `max_loops`
is a count of iterations (`range(self.max_loops)`); `exit_condition`
is optional. -/
structure LoopAgent where
  agent_name : String
  child : ChildFn
  max_loops : Nat
  exit_condition : Option (SessionState → Bool)
  keep_alive_state : Bool

/-- The guard `self.exit_condition and self.exit_condition(loop_state)`
(loop_agent.py:45): false when no predicate is supplied. -/
def exit_met : Option (SessionState → Bool) → SessionState → Bool
  | Option.none, _ => false
  | some p, st => p st

/-- loop_agent.py:51-54: `feedback` is `str(last_agent_output)`, or its
`model_dump_json()` when the output is a `BaseModel`. -/
def feedback_of (resp : AgentResponse) : String :=
  match resp.final_content with
  | .modelObj j => j
  | v => py_str v

/-- The revision prompt string built at loop_agent.py:61 and 64. -/
def revision_prompt (original_prompt feedback : String) : String :=
  "Original request: " ++ original_prompt ++
    "\n\nPlease revise your work based on the following feedback: " ++ feedback

/-- loop_agent.py:58-65: with `keep_alive_state` false the history is
cleared before the revision prompt is appended; otherwise the same
prompt is appended without clearing. -/
def inject_feedback (keep_alive_state : Bool) (original_prompt : String)
    (resp : AgentResponse) (state : SessionState) : SessionState :=
  if keep_alive_state then
    state.add_message "user" (revision_prompt original_prompt (feedback_of resp))
  else
    SessionState.add_message { state with history := [] } "user"
      (revision_prompt original_prompt (feedback_of resp))

/-- Reshapes a loop result by counting one more child call. -/
def bump_call (res : SessionState × Option AgentResponse × Nat) :
    SessionState × Option AgentResponse × Nat :=
  (res.1, res.2.1, res.2.2 + 1)

/-- The `for i in range(max_loops)` body of `LoopAgent.execute`
(loop_agent.py:37-67), recursing on the number of remaining iterations;
at remaining `r + 1` the loop index is `i = max_loops - (r + 1)`, so
the feedback guard `i < max_loops - 1` (loop_agent.py:50) is `r ≠ 0`.
The second component is the running `final_response`; the third counts
child `execute` calls (specification ghost data).  `r = 0` is the loop
exhausting: the running `final_response` is returned unchanged. -/
def LoopAgent.go (child : ChildFn) (ec : Option (SessionState → Bool))
    (keep_alive_state : Bool) (original_prompt : String) :
    Nat → SessionState → Option AgentResponse → SessionState × Option AgentResponse × Nat
  | 0, state, last => (state, last, 0)
  | r + 1, state, _ =>
    if exit_met ec (child state).1 then
      ((child state).1, some (child state).2, 1)
    else if r = 0 then
      ((child state).1, some (child state).2, 1)
    else
      bump_call (LoopAgent.go child ec keep_alive_state original_prompt r
        (inject_feedback keep_alive_state original_prompt (child state).2 (child state).1)
        (some (child state).2))

/-- `LoopAgent.execute` (loop_agent.py:27-70): an empty history yields
the error response without running the child; otherwise
`original_prompt = state.history[0].content` and the loop runs.  The
second component is the returned `final_response` (Python `None` when
`max_loops = 0`), the third the number of child calls (ghost data). -/
def LoopAgent.execute (a : LoopAgent) (state : SessionState) :
    SessionState × Option AgentResponse × Nat :=
  match state.history with
  | [] => (state, some ⟨"error", Value.str "LoopAgent requires an initial prompt.", Option.none⟩, 0)
  | first :: _ =>
    LoopAgent.go a.child a.exit_condition a.keep_alive_state first.content a.max_loops state Option.none

/-- Ghost trace of the loop: iteration by iteration, the (post-child
state, response) pair, with feedback injected between iterations
exactly as `LoopAgent.go` does while the exit condition keeps failing
(no feedback after the last iteration, matching the `i < max_loops - 1`
guard). -/
def LoopAgent.entries (child : ChildFn) (keep_alive_state : Bool) (original_prompt : String) :
    Nat → SessionState → List (SessionState × AgentResponse)
  | 0, _ => []
  | r + 1, state =>
    child state :: LoopAgent.entries child keep_alive_state original_prompt r
      (if r = 0 then (child state).1
       else inject_feedback keep_alive_state original_prompt (child state).2 (child state).1)

def c4Child : ChildFn := fun st =>
  (st.add_message "agent" "draft", ⟨"success", Value.str "draft", Option.none⟩)

def c4Exit : SessionState → Bool := fun _ => true

def c4Agent : LoopAgent := ⟨"loop", c4Child, 3, some c4Exit, false⟩

def c4State : SessionState := ⟨"s4", [⟨"user", "go"⟩], []⟩

def c4Pair : SessionState × AgentResponse :=
  (⟨"s4", [⟨"user", "go"⟩, ⟨"agent", "draft"⟩], []⟩, ⟨"success", Value.str "draft", Option.none⟩)

/-! ## Totality and statuses of `execute` results (C5) -/

/-- The status vocabulary named by the spec's Agent Response data model:
`success`, `error`, `max_iterations_reached`. -/
def StatusOk (r : AgentResponse) : Prop :=
  r.status = "success" ∨ r.status = "error" ∨ r.status = "max_iterations_reached"

def c5Child : ChildFn := fun st =>
  (st, ⟨"success", Value.str "done", Option.none⟩)

def c5EmptySeq : SequentialAgent := ⟨"empty_pipeline", [], false⟩

def c5ZeroLoop : LoopAgent := ⟨"zero_loop", c5Child, 0, Option.none, false⟩

def c5State : SessionState := ⟨"s5", [⟨"user", "hello"⟩], []⟩

def c5Seq : SequentialAgent := ⟨"pipeline", [c5Child], false⟩

def c5Loop : LoopAgent := ⟨"loop5", c5Child, 2, Option.none, false⟩

def c5Par : ParallelAgent := ⟨"par5", [], false⟩

/-! ## ToolManager (core/tool.py) -/

/-- A registered callable as `ToolManager._execute_function` sees it:
from keyword arguments to either a result value or a raised exception
(`Except.error e` with `e` the exception text).  Hydration of
pydantic-typed arguments (tool.py:111-122) happens inside the same
`try` block as the invocation, so its failures are part of the
callable's `Except.error` here. -/
abbrev ToolFn : Type := List (String × Value) → Except String Value

/-- `ToolManager` (tool.py:7-28): `self.tools` is a dict from
`func.__name__` to the callable; embedded as the registration list. -/
structure ToolManager where
  tools : List (String × ToolFn)

/-- `register` (tool.py:21-28): stores the callable under its name. -/
def ToolManager.register (m : ToolManager) (name : String) (f : ToolFn) : ToolManager :=
  ⟨m.tools ++ [(name, f)]⟩

/-- Python dict lookup over the registration list: the last registration
for a name wins (re-registration silently overwrites). -/
def ToolManager.lookup? (m : ToolManager) (name : String) : Option ToolFn :=
  (m.tools.reverse.find? (fun p => p.1 == name)).map (fun p => p.2)

/-- `ToolManager._execute_function` (tool.py:106-136): every failure of
hydration or invocation is caught and becomes the string result
`"Error executing tool: …"`; a pydantic `BaseModel` result is
serialized with `model_dump_json()` before being returned. -/
def execute_function (f : ToolFn) (kwargs : List (String × Value)) : Value :=
  match f kwargs with
  | .error e => .str ("Error executing tool: " ++ e)
  | .ok result =>
    match result with
    | .modelObj j => .str j
    | v => v

/-- `ToolManager.execute_tool` (tool.py:92-104): an unregistered name
returns the string `"Error: Tool '<name>' not found."`; otherwise
tool.py:104 calls `self._execute_function(func, **args)` — unpacking
the argument mapping into the helper's keyword parameters.  If the
mapping contains the key `"func"` (or `"self"`), the unpacking collides
with the helper's own positional parameters and raises `TypeError` at
the call site, outside `_execute_function`'s `try`, so the exception
escapes `execute_tool` (`Except.error` here); any other mapping reaches
`_execute_function`, which cannot raise. -/
def ToolManager.execute_tool (m : ToolManager) (name : String) (args : List (String × Value)) :
    Except String Value :=
  match m.lookup? name with
  | Option.none => Except.ok (.str ("Error: Tool '" ++ name ++ "' not found."))
  | some f =>
    if args.any (fun kv => kv.1 == "self" || kv.1 == "func") then
      Except.error "TypeError: _execute_function() got multiple values for argument"
    else
      Except.ok (execute_function f args)

def c6FailTool : ToolFn := fun _ => Except.error "division by zero"

def c6Manager : ToolManager := ToolManager.register ⟨[]⟩ "divide" c6FailTool

/-! ## DynamicWorkflowAgent (agents/dynamic_workflow_agent.py) -/

/-- Raw, untrusted plan data for one agent node, as delivered in the
planner tool call's `arguments` (the shape of
`core/workflow_models.py` `AgentConfig` before validation; fields not
involved in any claim are not carried). -/
inductive RawAgentConfig where
  | mk (agent_type : String) (agent_name : String)
       (children : List RawAgentConfig) (child : Option RawAgentConfig)

def RawAgentConfig.agent_type : RawAgentConfig → String
  | .mk t _ _ _ => t

/-- The `Literal` admitted for `AgentConfig.agent_type`
(workflow_models.py:5). -/
def allowed_agent_types : List String :=
  ["LLMAgent", "SequentialAgent", "ParallelAgent", "LoopAgent"]

/-- One pydantic validation error: its location tuple and error type,
the two fields `DynamicWorkflowAgent.execute` inspects
(dynamic_workflow_agent.py:91-92). -/
structure PlanValidationError where
  loc : List String
  etype : String
deriving DecidableEq, Repr

mutual

/-- Modelled from the spec: pydantic's recursive validation of raw plan
data against the `AgentConfig` schema of `core/workflow_models.py`
(pydantic itself is an external library, outside `src/`).  The only
constraint that can fail in this embedding is the `agent_type`
`Literal`; a mismatch is reported as a `literal_error` at the node's
location, mirroring `ValidationError.errors()`. -/
def RawAgentConfig.collect_type_errors : RawAgentConfig → List String → List PlanValidationError
  | .mk atype _ children child, loc =>
    (if allowed_agent_types.contains atype then []
     else [⟨loc ++ ["agent_type"], "literal_error"⟩]) ++
    collect_type_errors_list children (loc ++ ["children"]) ++
    collect_type_errors_opt child (loc ++ ["child"])

/-- Validation errors of a `children` list. -/
def collect_type_errors_list : List RawAgentConfig → List String → List PlanValidationError
  | [], _ => []
  | c :: cs, loc => RawAgentConfig.collect_type_errors c loc ++ collect_type_errors_list cs loc

/-- Validation errors of an optional `child`. -/
def collect_type_errors_opt : Option RawAgentConfig → List String → List PlanValidationError
  | Option.none, _ => []
  | some c, loc => RawAgentConfig.collect_type_errors c loc

end

/-- Raw `WorkflowPlan` data (workflow_models.py:19-22). -/
structure RawWorkflowPlan where
  main_topic : String
  workflow_description : String
  root_agent : RawAgentConfig

/-- `WorkflowPlan.model_validate(func_args)`: the validation errors of
the whole raw plan; the root agent is validated at location
`("root_agent", …)`. -/
def plan_errors (p : RawWorkflowPlan) : List PlanValidationError :=
  p.root_agent.collect_type_errors ["root_agent"]

/-- A rendering of a `ValidationError` for the
`"Invalid workflow plan: {e}"` message (never inspected by a claim). -/
def render_errors (errs : List PlanValidationError) : String :=
  String.intercalate "; " (errs.map (fun e => String.intercalate "." e.loc ++ ": " ++ e.etype))

/-- The `try: WorkflowPlan.model_validate … except ValidationError`
block of `DynamicWorkflowAgent.execute`
(dynamic_workflow_agent.py:87-94): a `literal_error` at
`("root_agent", "agent_type")` is re-raised as
`ValueError("Unknown agent type: <root agent_type>")`, any other
validation failure as `ValueError("Invalid workflow plan: …")`. -/
def plan_validate (p : RawWorkflowPlan) : Except String RawWorkflowPlan :=
  match plan_errors p with
  | [] => .ok p
  | e :: rest =>
    if (e :: rest).any (fun err =>
        err.loc == ["root_agent", "agent_type"] && err.etype == "literal_error") then
      .error ("Unknown agent type: " ++ p.root_agent.agent_type)
    else
      .error ("Invalid workflow plan: " ++ render_errors (e :: rest))

/-- The planner LLM's reply as `DynamicWorkflowAgent.execute` inspects
it: either a tool call (name plus plan-shaped arguments) inside
`response["message"]["tool_calls"][0]`, or anything else. -/
inductive PlannerLLMResponse where
  | toolCall (func_name : String) (func_args : RawWorkflowPlan)
  | other

/-- `DynamicWorkflowAgent.execute` (dynamic_workflow_agent.py:60-106)
from the planner response on.  `run_plan` stands for
`_build_agent_from_config` followed by `root_agent_instance.execute`
on a plan that passed validation; its boolean — like the one in this
function's result — records whether any agent of the plan was executed.
Exceptions raised inside the `try` block are caught at
dynamic_workflow_agent.py:104-106 and wrapped as the
`"Failed to build or execute dynamic workflow: …"` error response. -/
def DynamicWorkflowAgent.execute (run_plan : RawWorkflowPlan → AgentResponse × Bool)
    (llm_response : PlannerLLMResponse) : AgentResponse × Bool :=
  match llm_response with
  | .other =>
    (⟨"error", .str "LLM did not return a tool call for workflow planning.", Option.none⟩, false)
  | .toolCall func_name func_args =>
    if func_name ≠ "create_workflow_plan" then
      (⟨"error", .str ("LLM called unexpected tool: " ++ func_name), Option.none⟩, false)
    else
      match plan_validate func_args with
      | .error msg =>
        (⟨"error", .str ("Failed to build or execute dynamic workflow: " ++ msg), Option.none⟩, false)
      | .ok plan => run_plan plan

def c7Plan : RawWorkflowPlan :=
  ⟨"some topic", "a plan with a bogus root",
    RawAgentConfig.mk "Unknown" "mystery_root" [] Option.none⟩

def c7RunPlan : RawWorkflowPlan → AgentResponse × Bool :=
  fun _ => (⟨"success", Value.str "ran", Option.none⟩, true)

/-! ## Structured-output validation (core/agent.py) and pydantic model
classes -/

/-- Modelled from the spec: the contract of an external pydantic model
class (pydantic is a third-party library, outside `src/`) as
`BaseAgent._validate_structured_output` uses it: `model_validate_json`
parses a JSON string into a model instance — embedded as the instance's
field data, a `Value` — or fails; `model_dump_json` serializes an
instance; and, pydantic's round-trip guarantee for standard models,
re-validating the serialization of a successfully-validated instance
succeeds with the same instance. -/
structure PydanticModelClass where
  model_validate_json : String → Except String Value
  model_dump_json : Value → String
  dump_validate : ∀ s v, model_validate_json s = Except.ok v →
    model_validate_json (model_dump_json v) = Except.ok v

/-- `BaseAgent._validate_structured_output` (core/agent.py:24-32): with
no `output_structure` the content passes through unvalidated; otherwise
the content is parsed with `model_validate_json` and the parsed model is
re-serialized with `model_dump_json`; a parse failure raises
`ValueError("Failed to validate structured output: …")`
(`Except.error` here). -/
def validate_structured_output (output_structure : Option PydanticModelClass)
    (content : String) : Except String String :=
  match output_structure with
  | Option.none => .ok content
  | some cls =>
    match cls.model_validate_json content with
    | .ok validated_model => .ok (cls.model_dump_json validated_model)
    | .error e =>
      .error ("ValueError: Failed to validate structured output: " ++ e ++ ". Content: " ++ content)

/-- A concrete pydantic-style model class accepting the JSON booleans
`"true"` and `"True"`, with canonical serialization `"true"`. -/
def boolClass : PydanticModelClass where
  model_validate_json s :=
    if s = "true" ∨ s = "True" then Except.ok (Value.bool true)
    else Except.error "invalid boolean payload"
  model_dump_json _ := "true"
  dump_validate := by
    intro s v h
    dsimp only at h ⊢
    split at h
    · simp only [Except.ok.injEq] at h
      subst h
      simp
    · exact absurd h (by simp)

/-! ## String helpers (executable embeddings of the Python string
operations `in`, `lower`, `upper`, `strip`) -/

/-- Whether `pat` is an initial segment of `s` (character lists). -/
def char_seq_starts : List Char → List Char → Bool
  | [], _ => true
  | _ :: _, [] => false
  | p :: ps, c :: cs => p == c && char_seq_starts ps cs

/-- Whether `pat` occurs contiguously in `s` (character lists). -/
def char_seq_has (pat : List Char) : List Char → Bool
  | [] => char_seq_starts pat []
  | c :: cs => char_seq_starts pat (c :: cs) || char_seq_has pat cs

/-- Python `pat in s` for strings. -/
def contains_substr (s pat : String) : Bool := char_seq_has pat.data s.data

/-- Python `s.lower()` (sufficient for the ASCII indicator phrases the
code compares against). -/
def str_lower (s : String) : String := ⟨s.data.map Char.toLower⟩

/-- Python `s.upper()`. -/
def str_upper (s : String) : String := ⟨s.data.map Char.toUpper⟩

/-- Python `s.strip()`: drop whitespace from both ends. -/
def py_strip (s : String) : String :=
  ⟨((s.data.dropWhile Char.isWhitespace).reverse.dropWhile Char.isWhitespace).reverse⟩

/-! ## ReActAgent (agents/react_agent.py) -/

/-- react_agent.py:205-211: phrases whose presence marks a final
answer. -/
def final_indicators : List String :=
  ["final answer", "in conclusion", "to summarize", "here is the", "here's the"]

/-- react_agent.py:213-218: phrases suggesting more tool work is
needed. -/
def needs_tool_indicators : List String :=
  ["i need to", "let me check", "i should call", "i'll use the"]

/-- `ReActAgent._is_final_answer` (react_agent.py:199-231): empty or
short content is not final; content with a needs-tool phrase is not
final; content with a final-answer phrase is final; otherwise content
is final iff it is substantial (stripped length > 50). -/
def is_final_answer (content : String) : Bool :=
  if (py_strip content).length < 10 then false
  else if needs_tool_indicators.any (fun ind => contains_substr (str_lower content) ind) then
    false
  else if final_indicators.any (fun ind => contains_substr (str_lower content) ind) then
    true
  else (py_strip content).length > 50

/-- `BaseAgent._get_summary` (core/agent.py:34-44): `"ROLE: content"`
lines for the last five messages, or a fixed string when the history is
empty. -/
def get_summary (history : List ChatMessage) : String :=
  if history.isEmpty then "No history available."
  else
    "Summary of last 5 messages:\n" ++
      String.intercalate "\n"
        ((history.drop (history.length - 5)).map
          (fun msg => str_upper msg.role ++ ": " ++ msg.content))

/-- Python attribute lookup `msg.tool_calls` on a `ChatMessage`: the
dataclass in core/state.py declares only `role` and `content`, so the
lookup raises `AttributeError`. -/
def ChatMessage.getattr_tool_calls (_ : ChatMessage) : Except String Unit :=
  .error "AttributeError: ChatMessage object has no attribute tool_calls"

/-- `BaseAgent._sync_history_to_state` (core/agent.py:19-22): for each
message of `execution_history[initial_history_len:]` it evaluates
`state.add_message(role=msg.role, content=msg.content,
tool_calls=msg.tool_calls, tool_call_id=…, name=…)`; evaluating
`msg.tool_calls` raises (see `ChatMessage.getattr_tool_calls`), so the
sync fails on the first message of the slice.  Were the attributes to
exist, the message would be appended to the shared history. -/
def sync_history_to_state (state : SessionState) (execution_history : List ChatMessage)
    (initial_history_len : Nat) : Except String SessionState :=
  (execution_history.drop initial_history_len).foldlM
    (fun st msg =>
      match ChatMessage.getattr_tool_calls msg with
      | .error e => Except.error e
      | .ok _ => Except.ok (st.add_message msg.role msg.content))
    state

/-- The LLM collaborator's reply as `ReActAgent.execute` parses it
(react_agent.py:102-118): a dict with a `content` string and optional
`tool_calls` (tool-call dicts, embedded as `Value`s), or a plain
string. -/
inductive LLMResponse where
  | dict (content : String) (tool_calls : Option (List Value))
  | text (s : String)

/-- `ReActAgent._extract_thinking` in its `strip_thinking` disabled (or
empty content) branch (react_agent.py:49-50): no thinking, content
unchanged.  The tag-scanning branch is not modelled: the embedded
`ReActAgent.execute` covers agents constructed with
`strip_thinking=False`, where extraction short-circuits here. -/
def extract_thinking_disabled (content : String) : Option String × String :=
  (Option.none, content)

/-- `ReActAgent` constructor state (react_agent.py:19-40), for
`strip_thinking=False` agents; the LLM collaborator is the `llm`
field, a deterministic function of the transcript. -/
structure ReActAgent where
  agent_name : String
  llm : List ChatMessage → LLMResponse
  instruction : String
  max_iterations : Nat
  output_structure : Option PydanticModelClass

/-- Outcome of one ReAct iteration: a terminal result (possibly a
raised exception) or the transcript to continue the loop with. -/
inductive StepOut where
  | done (r : Except String (SessionState × AgentResponse))
  | next (execution_history : List ChatMessage)

/-- react_agent.py:121-144, the `final_content is not None` block: a
recognized final answer is validated against the output structure
(react_agent.py:124-125, raising on failure), the local transcript is
synced back (`_sync_history_to_state`, react_agent.py:128 — which
raises, see `sync_history_to_state`), the final content is appended and
the success response returned; an ambiguous answer appends the
clarification request to the transcript and the loop continues. -/
def finish_or_clarify (a : ReActAgent) (state : SessionState) (initial_history_len : Nat)
    (execution_history : List ChatMessage) (final_content : String) : StepOut :=
  if is_final_answer final_content then
    StepOut.done (do
      let fc ← validate_structured_output a.output_structure final_content
      let st ← sync_history_to_state state execution_history initial_history_len
      Except.ok (st.add_message "assistant" fc, ⟨"success", Value.str fc, Option.none⟩))
  else
    StepOut.next (execution_history ++
      [⟨"user", "Please either use a tool or provide your final answer."⟩])

/-- One iteration of the ReAct loop (react_agent.py:86-157) for a
`strip_thinking=False` agent: parse the LLM reply; with no (or empty)
tool calls the content is a candidate final answer; with tool calls
present, react_agent.py:149-153 constructs
`ChatMessage(role="assistant", content=…, tool_calls=…)` — a
`TypeError`, since the `ChatMessage` dataclass accepts only `role` and
`content`. -/
def ReActAgent.step (a : ReActAgent) (state : SessionState) (initial_history_len : Nat)
    (execution_history : List ChatMessage) : StepOut :=
  match a.llm execution_history with
  | .text s =>
    finish_or_clarify a state initial_history_len execution_history
      (extract_thinking_disabled s).2
  | .dict content tool_calls =>
    if (tool_calls.getD []).isEmpty then
      finish_or_clarify a state initial_history_len execution_history
        (extract_thinking_disabled content).2
    else
      StepOut.done (Except.error
        "TypeError: ChatMessage.__init__ got an unexpected keyword argument tool_calls")

/-- The bounded iteration of `ReActAgent.execute`
(react_agent.py:86-174), on fuel = remaining iterations; fuel 0 is the
max-iterations branch (react_agent.py:159-174): summarize the
transcript, sync back (which raises), and report
`max_iterations_reached`. -/
def ReActAgent.go (a : ReActAgent) (state : SessionState) (initial_history_len : Nat) :
    Nat → List ChatMessage → Except String (SessionState × AgentResponse)
  | 0, execution_history => do
    let st ← sync_history_to_state state execution_history initial_history_len
    Except.ok
      (st.add_message "assistant" (extract_thinking_disabled (get_summary execution_history)).2,
        ⟨"max_iterations_reached",
          Value.str (extract_thinking_disabled (get_summary execution_history)).2, Option.none⟩)
  | n + 1, execution_history =>
    match ReActAgent.step a state initial_history_len execution_history with
    | .done r => r
    | .next h2 => ReActAgent.go a state initial_history_len n h2

/-- `ReActAgent.execute` (react_agent.py:78-84): record
`initial_history_len = len(state.history)`, build the local transcript
`[system instruction] + state.history`, and run the loop. -/
def ReActAgent.execute (a : ReActAgent) (state : SessionState) :
    Except String (SessionState × AgentResponse) :=
  ReActAgent.go a state state.history.length a.max_iterations
    (⟨"system", a.instruction⟩ :: state.history)

def c2Agent : ReActAgent :=
  ⟨"calculator", fun _ => LLMResponse.text "Here is the final answer: 2 + 3 equals 5.",
    "You are a calculator.", 10, Option.none⟩

def c2State : SessionState := ⟨"s2", [⟨"user", "What is 2 + 3?"⟩], []⟩

/-! ## Theorems -/

theorem ParallelAgent.aggregate_eq_map (rs : List (Except String (SessionState × AgentResponse))) :
    ParallelAgent.aggregate rs = rs.map ParallelAgent.aggregate_one := by
  induction rs with
  | nil => rfl
  | cons r rest ih =>
    cases r with
    | error e => simp [ParallelAgent.aggregate, ParallelAgent.aggregate_one, ih]
    | ok p => cases p; simp [ParallelAgent.aggregate, ParallelAgent.aggregate_one, ih]

theorem ParallelAgent.execute_final_content (a : ParallelAgent) (state : SessionState) :
    (a.execute state).2.final_content =
      Value.list (a.children.map (fun child => ParallelAgent.aggregate_one (child (deepcopy state)))) := by
  simp [ParallelAgent.execute, ParallelAgent.aggregate_eq_map, List.map_map]

/-- C1: For every `ParallelAgent` with `N` children and every session
state, `execute` returns a result list of length `N` whose `i`-th entry
is computed from the `i`-th child's outcome on a deep copy of the state
(so entries appear in child order), and the parent's `SessionState` —
history and data — is unchanged after execution. -/
theorem parallel_execute_frame_and_order (a : ParallelAgent) (state : SessionState) :
    (a.execute state).1.history = state.history ∧
    (a.execute state).1.data = state.data ∧
    ∃ l, (a.execute state).2.final_content = Value.list l ∧
      l.length = a.children.length ∧
      ∀ (i : Nat) (c : FallibleChildFn), a.children[i]? = some c →
        l[i]? = some (ParallelAgent.aggregate_one (c (deepcopy state))) := by
  refine ⟨rfl, rfl, a.children.map (fun child => ParallelAgent.aggregate_one (child (deepcopy state))), ParallelAgent.execute_final_content a state, List.length_map _ _, ?_⟩
  intro i c hc
  simp [List.getElem?_map, hc]

/-- Witness for C1 at a concrete two-child agent: the indexed-entry
hypothesis is discharged at index 0. -/
theorem parallel_execute_frame_and_order_witness :
    (c1Agent.execute c1State).1.history = c1State.history ∧
    ∃ l, (c1Agent.execute c1State).2.final_content = Value.list l ∧
      l.length = 2 ∧ l[0]? = some (Value.str "r0") := by
  obtain ⟨h1, _, l, hl, hlen, hidx⟩ := parallel_execute_frame_and_order c1Agent c1State
  exact ⟨h1, l, hl, hlen, hidx 0 c1Child0 rfl⟩

/-- C8: in a `ParallelAgent` run, a child that raises yields `None` at
exactly its own index of the aggregated list, while every index whose
child returned normally holds exactly that child's `final_content`. -/
theorem parallel_child_exception_isolated (a : ParallelAgent) (state : SessionState)
    (i : Nat) (c : FallibleChildFn) (e : String)
    (hc : a.children[i]? = some c) (he : c (deepcopy state) = Except.error e) :
    ∃ l, (a.execute state).2.final_content = Value.list l ∧
      l[i]? = some Value.none ∧
      ∀ (j : Nat) (d : FallibleChildFn) (st' : SessionState) (resp : AgentResponse),
        a.children[j]? = some d →
        d (deepcopy state) = Except.ok (st', resp) →
        l[j]? = some resp.final_content := by
  refine ⟨a.children.map (fun child => ParallelAgent.aggregate_one (child (deepcopy state))), ParallelAgent.execute_final_content a state, ?_, ?_⟩
  · simp [List.getElem?_map, hc, he, ParallelAgent.aggregate_one]
  · intro j d st' resp hd hok
    simp [List.getElem?_map, hd, hok, ParallelAgent.aggregate_one]

/-- Witness for C8: concrete agent where child 1 raises and child 0
returns; slot 1 is `None`, slot 0 is child 0's content. -/
theorem parallel_child_exception_isolated_witness :
    ∃ l, (c1Agent.execute c1State).2.final_content = Value.list l ∧
      l[1]? = some Value.none ∧ l[0]? = some (Value.str "r0") := by
  obtain ⟨l, hl, hnone, hok⟩ :=
    parallel_child_exception_isolated c1Agent c1State 1 c1Child1 "boom" rfl rfl
  exact ⟨l, hl, hnone,
    hok 0 c1Child0 (c1State.add_message "agent" "zero") ⟨"success", Value.str "r0", Option.none⟩ rfl rfl⟩

/-- C10: every completed `ParallelAgent.execute` reports status
`"success"`, regardless of how many children raised
(parallel_agent.py:41 returns `status="success"` unconditionally). -/
theorem parallel_execute_status_always_success (a : ParallelAgent) (state : SessionState) :
    (a.execute state).2.status = "success" := rfl

theorem SequentialAgent.run_append (ka : Bool) (cs ds : List ChildFn) (state : SessionState) :
    SequentialAgent.run ka (cs ++ ds) state =
      ((SequentialAgent.run ka ds (SequentialAgent.run ka cs state).1).1,
        (SequentialAgent.run ka cs state).2 ++ (SequentialAgent.run ka ds (SequentialAgent.run ka cs state).1).2) := by
  induction cs generalizing state with
  | nil => simp [SequentialAgent.run]
  | cons c cs ih => simp [SequentialAgent.run, ih]

theorem handle_child_response_history_false (r : AgentResponse) (state : SessionState) :
    (handle_child_response false r state).history = [message_of_response r] := by
  cases h : r.final_content <;>
    simp [handle_child_response, message_of_response, SessionState.add_message, h]

/-- After handling one more child from any intermediate state, the
result state and trace of the extended run. -/
theorem SequentialAgent.run_concat (ka : Bool) (cs : List ChildFn) (c : ChildFn) (state : SessionState) :
    SequentialAgent.run ka (cs ++ [c]) state =
      (handle_child_response ka (c (SequentialAgent.run ka cs state).1).2
          (c (SequentialAgent.run ka cs state).1).1,
        (SequentialAgent.run ka cs state).2 ++ [(c (SequentialAgent.run ka cs state).1).2]) := by
  rw [SequentialAgent.run_append]
  simp [SequentialAgent.run]

/-- C3: for a `SequentialAgent` with non-empty children, `execute`
returns exactly the last child's response (the response the last child
produces on the state reached after the earlier children), and with
`keep_alive_state = false` the shared history immediately after each
child's turn — in particular after each non-final one — is exactly the
one message carrying that child's output: serialized structured output
as a user-role message, unstructured output as an agent-role message. -/
theorem sequential_last_response_and_pruned_history (a : SequentialAgent)
    (cs : List ChildFn) (c : ChildFn) (state : SessionState)
    (hchildren : a.children = cs ++ [c]) :
    (a.execute state).2 =
      some (c (SequentialAgent.run a.keep_alive_state cs state).1).2 ∧
    (a.keep_alive_state = false →
      ∀ (ds : List ChildFn) (d : ChildFn) (es : List ChildFn),
        a.children = ds ++ d :: es →
        (SequentialAgent.run false (ds ++ [d]) state).1.history =
          [message_of_response ((d (SequentialAgent.run false ds state).1).2)]) := by
  constructor
  · simp [SequentialAgent.execute, hchildren, SequentialAgent.run_concat,
      List.getLast?_concat]
  · intro hka ds d es _
    rw [SequentialAgent.run_concat]
    exact handle_child_response_history_false _ _

/-- Witness for C3 at a two-child pipeline: the final response is child
2's structured response, and after child 1 (the non-final child) the
history is exactly one agent-role message `"5"`. -/
theorem sequential_last_response_and_pruned_history_witness :
    (c3Agent.execute c3State).2 =
      some ⟨"success", Value.modelObj "\x7b\"approved\": true\x7d", Option.none⟩ ∧
    (SequentialAgent.run false [c3Child1] c3State).1.history = [⟨"agent", "5"⟩] := by
  obtain ⟨h1, h2⟩ :=
    sequential_last_response_and_pruned_history c3Agent [c3Child1] c3Child2 c3State rfl
  exact ⟨h1, h2 rfl [] c3Child1 [c3Child2] rfl⟩

theorem LoopAgent.go_calls_le (child : ChildFn) (ec : Option (SessionState → Bool))
    (ka : Bool) (op : String) :
    ∀ (r : Nat) (state : SessionState) (last : Option AgentResponse),
      (LoopAgent.go child ec ka op r state last).2.2 ≤ r := by
  intro r
  induction r with
  | zero => intro state last; simp [LoopAgent.go]
  | succ r ih =>
    intro state last
    simp only [LoopAgent.go]
    split
    · exact Nat.succ_le_succ (Nat.zero_le r)
    · split
      · exact Nat.succ_le_succ (Nat.zero_le r)
      · exact Nat.succ_le_succ (ih _ _)

theorem LoopAgent.go_calls_no_condition (child : ChildFn) (ka : Bool) (op : String) :
    ∀ (r : Nat) (state : SessionState) (last : Option AgentResponse),
      (LoopAgent.go child Option.none ka op r state last).2.2 = r := by
  intro r
  induction r with
  | zero => intro state last; simp [LoopAgent.go]
  | succ r ih =>
    intro state last
    rcases Nat.eq_zero_or_pos r with hr | hr
    · subst hr; simp [LoopAgent.go, exit_met]
    · have hr' : r ≠ 0 := by omega
      simp [LoopAgent.go, exit_met, hr', bump_call, ih]

theorem LoopAgent.go_first_exit (child : ChildFn) (p : SessionState → Bool)
    (ka : Bool) (op : String) :
    ∀ (k r : Nat) (state : SessionState) (last : Option AgentResponse)
      (pair : SessionState × AgentResponse),
      1 ≤ k → k ≤ r →
      (LoopAgent.entries child ka op r state)[k - 1]? = some pair →
      (∀ (j : Nat) (q : SessionState × AgentResponse), j < k - 1 →
        (LoopAgent.entries child ka op r state)[j]? = some q → p q.1 = false) →
      p pair.1 = true →
      LoopAgent.go child (some p) ka op r state last = (pair.1, some pair.2, k) := by
  intro k
  induction k with
  | zero => intro r state last pair h1; exact absurd h1 (by omega)
  | succ k ih =>
    intro r state last pair _ h2 hget hprev hp
    obtain ⟨r', rfl⟩ : ∃ r', r = r' + 1 := ⟨r - 1, by omega⟩
    cases k with
    | zero =>
      simp only [LoopAgent.entries, Nat.add_sub_cancel, List.getElem?_cons_zero,
        Option.some.injEq] at hget
      subst hget
      have hcond : exit_met (some p) (child state).1 = true := by
        simpa [exit_met] using hp
      simp only [LoopAgent.go, if_pos hcond]
    | succ k' =>
      have hr' : r' ≠ 0 := by omega
      have hfalse : p (child state).1 = false := by
        refine hprev 0 (child state) (by omega) ?_
        simp [LoopAgent.entries]
      have hshift : ∀ (m : Nat),
          (LoopAgent.entries child ka op (r' + 1) state)[m + 1]? =
            (LoopAgent.entries child ka op r'
              (inject_feedback ka op (child state).2 (child state).1))[m]? := by
        intro m
        simp [LoopAgent.entries, if_neg hr']
      have hget' : (LoopAgent.entries child ka op r'
          (inject_feedback ka op (child state).2 (child state).1))[k' + 1 - 1]? = some pair := by
        rw [Nat.add_sub_cancel, ← hshift k']
        simpa using hget
      have hprev' : ∀ (j : Nat) (q : SessionState × AgentResponse), j < k' + 1 - 1 →
          (LoopAgent.entries child ka op r'
            (inject_feedback ka op (child state).2 (child state).1))[j]? = some q →
          p q.1 = false := by
        intro j q hj hq
        refine hprev (j + 1) q (by omega) ?_
        rw [hshift j]; exact hq
      have hrec := ih r' (inject_feedback ka op (child state).2 (child state).1)
        (some (child state).2) pair (by omega) (by omega) hget' hprev' hp
      have hcond : ¬ (exit_met (some p) (child state).1 = true) := by
        simp [exit_met, hfalse]
      simp only [LoopAgent.go, if_neg hcond, if_neg hr']
      rw [hrec]
      rfl

/-- C4: for a `LoopAgent` run on a state with non-empty history, the
child is called at most `max_loops` times; with no exit condition it is
called exactly `max_loops` times; and if the exit condition first
becomes true on the state right after child call `k` (`1 ≤ k ≤
max_loops`, with the condition false after every earlier call), then
exactly `k` child calls occur and that iteration's response is
returned. -/
theorem loop_agent_call_count (a : LoopAgent) (state : SessionState)
    (first : ChatMessage) (rest : List ChatMessage)
    (hh : state.history = first :: rest) :
    ((a.execute state).2.2 ≤ a.max_loops) ∧
    (a.exit_condition = Option.none → (a.execute state).2.2 = a.max_loops) ∧
    (∀ (p : SessionState → Bool) (k : Nat) (pair : SessionState × AgentResponse),
      a.exit_condition = some p → 1 ≤ k → k ≤ a.max_loops →
      (LoopAgent.entries a.child a.keep_alive_state first.content a.max_loops state)[k - 1]? = some pair →
      (∀ (j : Nat) (q : SessionState × AgentResponse), j < k - 1 →
        (LoopAgent.entries a.child a.keep_alive_state first.content a.max_loops state)[j]? = some q →
        p q.1 = false) →
      p pair.1 = true →
      (a.execute state).2.2 = k ∧ (a.execute state).2.1 = some pair.2) := by
  have hex : a.execute state =
      LoopAgent.go a.child a.exit_condition a.keep_alive_state first.content a.max_loops state Option.none := by
    simp [LoopAgent.execute, hh]
  refine ⟨?_, ?_, ?_⟩
  · rw [hex]; exact LoopAgent.go_calls_le _ _ _ _ _ _ _
  · intro hec; rw [hex, hec]; exact LoopAgent.go_calls_no_condition _ _ _ _ _ _
  · intro p k pair hec h1 h2 hget hprev hp
    rw [hex, hec]
    rw [LoopAgent.go_first_exit a.child p a.keep_alive_state first.content k a.max_loops
      state Option.none pair h1 h2 hget hprev hp]
    exact ⟨rfl, rfl⟩

/-- Witness for C4: with an always-true exit condition and
`max_loops = 3`, the loop makes exactly one child call (so the bound,
the exact count and the returned response are all exercised). -/
theorem loop_agent_call_count_witness :
    (c4Agent.execute c4State).2.2 ≤ 3 ∧
    (c4Agent.execute c4State).2.2 = 1 ∧
    (c4Agent.execute c4State).2.1 = some c4Pair.2 := by
  obtain ⟨hle, _, hexit⟩ := loop_agent_call_count c4Agent c4State ⟨"user", "go"⟩ [] rfl
  obtain ⟨hc, hr⟩ := hexit c4Exit 1 c4Pair rfl (by omega) (by decide)
    (by rfl) (fun j q hj _ => absurd hj (by omega)) rfl
  exact ⟨hle, hc, hr⟩

/-- C5 counterexample: a `SequentialAgent` with an empty children list
and a `LoopAgent` with `max_loops = 0` (on a non-empty history) both
return Python `None` — `final_response` is never assigned — rather than
an `AgentResponse` with a status from the expected set. -/
theorem execute_none_on_degenerate_configs :
    (c5EmptySeq.execute c5State).2 = Option.none ∧
    (c5ZeroLoop.execute c5State).2.1 = Option.none :=
  ⟨rfl, rfl⟩

theorem SequentialAgent.run_responses_mem (ka : Bool) (cs : List ChildFn) (state : SessionState) :
    ∀ r ∈ (SequentialAgent.run ka cs state).2, ∃ c ∈ cs, ∃ s, r = (c s).2 := by
  induction cs generalizing state with
  | nil => simp [SequentialAgent.run]
  | cons c cs ih =>
    intro r hr
    simp only [SequentialAgent.run, List.mem_cons] at hr
    rcases hr with h | h
    · exact ⟨c, List.mem_cons_self c cs, state, h⟩
    · obtain ⟨d, hd, s, hs⟩ := ih _ r h
      exact ⟨d, List.mem_cons_of_mem c hd, s, hs⟩

theorem SequentialAgent.run_length (ka : Bool) (cs : List ChildFn) (state : SessionState) :
    (SequentialAgent.run ka cs state).2.length = cs.length := by
  induction cs generalizing state with
  | nil => rfl
  | cons c cs ih => simp [SequentialAgent.run, ih]

theorem list_getLast?_mem {α : Type} {l : List α} {x : α} (h : l.getLast? = some x) : x ∈ l := by
  obtain ⟨hne, hx⟩ := List.mem_getLast?_eq_getLast (l := l) (x := x) h
  rw [hx]
  exact List.getLast_mem hne

theorem LoopAgent.go_response_from_child (child : ChildFn) (ec : Option (SessionState → Bool))
    (ka : Bool) (op : String) :
    ∀ (r : Nat) (state : SessionState) (last : Option AgentResponse), 1 ≤ r →
      ∃ s, (LoopAgent.go child ec ka op r state last).2.1 = some ((child s).2) := by
  intro r
  induction r with
  | zero => intro state last h; exact absurd h (by omega)
  | succ r ih =>
    intro state last _
    simp only [LoopAgent.go]
    split
    · exact ⟨state, rfl⟩
    · split
      · exact ⟨state, rfl⟩
      · next hr =>
        obtain ⟨s, hs⟩ := ih
          (inject_feedback ka op (child state).2 (child state).1)
          (some (child state).2) (by omega)
        exact ⟨s, by simpa [bump_call] using hs⟩

/-- C5 (amended): `ParallelAgent.execute` always returns a response with
status in the expected set; `SequentialAgent.execute` does so whenever
its children list is non-empty and every child's responses use the
expected statuses; `LoopAgent.execute` does so whenever `max_loops ≥ 1`
and the child's responses use the expected statuses (an empty history
yields the `error` response).  The degenerate configurations excluded
here — empty children, `max_loops = 0` — return Python `None` (see the
counterexample). -/
theorem execute_response_status_amended (pa : ParallelAgent) (sa : SequentialAgent)
    (la : LoopAgent) (state : SessionState) :
    StatusOk (pa.execute state).2 ∧
    (sa.children ≠ [] → (∀ c ∈ sa.children, ∀ s, StatusOk ((c s).2)) →
      ∃ r, (sa.execute state).2 = some r ∧ StatusOk r) ∧
    (1 ≤ la.max_loops → (∀ s, StatusOk ((la.child s).2)) →
      ∃ r, (la.execute state).2.1 = some r ∧ StatusOk r) := by
  refine ⟨Or.inl rfl, ?_, ?_⟩
  · intro hne hok
    have hlen : (SequentialAgent.run sa.keep_alive_state sa.children state).2.length ≠ 0 := by
      rw [SequentialAgent.run_length]
      intro h
      exact hne (List.length_eq_zero.mp h)
    rcases hlast : (SequentialAgent.run sa.keep_alive_state sa.children state).2.getLast? with _ | r
    · exfalso
      rw [List.getLast?_eq_none_iff] at hlast
      exact hlen (by simp [hlast])
    · refine ⟨r, ?_, ?_⟩
      · simp [SequentialAgent.execute, hlast]
      · obtain ⟨c, hc, s, hs⟩ :=
          SequentialAgent.run_responses_mem sa.keep_alive_state sa.children state r
            (list_getLast?_mem hlast)
        rw [hs]
        exact hok c hc s
  · intro hml hok
    rcases hh : state.history with _ | ⟨first, rest⟩
    · exact ⟨⟨"error", Value.str "LoopAgent requires an initial prompt.", Option.none⟩,
        by simp [LoopAgent.execute, hh], Or.inr (Or.inl rfl)⟩
    · obtain ⟨s, hs⟩ := LoopAgent.go_response_from_child la.child la.exit_condition
        la.keep_alive_state first.content la.max_loops state Option.none hml
      refine ⟨(la.child s).2, ?_, hok s⟩
      simp [LoopAgent.execute, hh, hs]

/-- Witness for the amended C5 at concrete non-degenerate agents. -/
theorem execute_response_status_amended_witness :
    StatusOk (c5Par.execute c5State).2 ∧
    (∃ r, (c5Seq.execute c5State).2 = some r ∧ StatusOk r) ∧
    (∃ r, (c5Loop.execute c5State).2.1 = some r ∧ StatusOk r) := by
  obtain ⟨hp, hs, hl⟩ := execute_response_status_amended c5Par c5Seq c5Loop c5State
  refine ⟨hp, hs (by simp [c5Seq]) ?_, hl (by decide) ?_⟩
  · intro c hc s
    simp only [c5Seq, List.mem_singleton] at hc
    rw [hc]
    exact Or.inl rfl
  · intro s
    exact Or.inl rfl

/-- C6 counterexample: `execute_tool` on a registered name can raise.
With `"divide"` registered, an argument mapping containing the key
`"func"` makes `self._execute_function(func, **args)` (tool.py:104)
collide on the helper's `func` parameter and raise `TypeError` at the
call site, outside the `try` — refuting "for every name and argument
mapping, `execute_tool` never raises". -/
theorem execute_tool_raises_on_func_key :
    c6Manager.execute_tool "divide" [("func", Value.str "shadow")] =
      Except.error "TypeError: _execute_function() got multiple values for argument" := rfl

/-- C6 (amended): for every argument mapping whose keys avoid
`_execute_function`'s own parameter names (`"self"`, `"func"`),
`execute_tool` does not raise: (i) an unregistered name returns the
`"Error: Tool '<name>' not found."` string, which contains
`"not found"` (this branch returns before the colliding call, for any
mapping); (ii) a registered callable always produces a returned value;
and (iii) when the callable (including argument hydration) fails with
exception text `e`, that value is exactly the string
`"Error executing tool: " ++ e`.  A mapping with key `"func"` or
`"self"` on a registered name instead raises `TypeError` (see the
counterexample). -/
theorem execute_tool_error_results (m : ToolManager) (name : String) (args : List (String × Value)) :
    (m.lookup? name = Option.none →
      m.execute_tool name args = Except.ok (.str ("Error: Tool '" ++ name ++ "' not found.")) ∧
      ∃ pre post, m.execute_tool name args = Except.ok (.str (pre ++ "not found" ++ post))) ∧
    (args.any (fun kv => kv.1 == "self" || kv.1 == "func") = false →
      (∀ (f : ToolFn), m.lookup? name = some f →
        m.execute_tool name args = Except.ok (execute_function f args)) ∧
      (∀ (f : ToolFn) (e : String), m.lookup? name = some f → f args = Except.error e →
        m.execute_tool name args = Except.ok (.str ("Error executing tool: " ++ e)))) := by
  constructor
  · intro hnone
    have hval : m.execute_tool name args =
        Except.ok (.str ("Error: Tool '" ++ name ++ "' not found.")) := by
      simp [ToolManager.execute_tool, hnone]
    refine ⟨hval, "Error: Tool '" ++ name ++ "' ", ".", ?_⟩
    rw [hval]
    simp only [String.append_assoc]
    rfl
  · intro hcol
    constructor
    · intro f hf
      simp [ToolManager.execute_tool, hf, hcol]
    · intro f e hf he
      simp [ToolManager.execute_tool, hf, hcol, execute_function, he]

/-- Witness for C6 (amended): a concrete manager where `"missing"` is
unregistered and the registered `"divide"` callable raises, under a
collision-free argument mapping. -/
theorem execute_tool_error_results_witness :
    c6Manager.execute_tool "missing" [] =
      Except.ok (.str "Error: Tool 'missing' not found.") ∧
    c6Manager.execute_tool "divide" [("x", Value.int 1)] =
      Except.ok (.str "Error executing tool: division by zero") := by
  obtain ⟨h1, _⟩ := (execute_tool_error_results c6Manager "missing" []).1 rfl
  have h2 := ((execute_tool_error_results c6Manager "divide" [("x", Value.int 1)]).2 rfl).2
    c6FailTool "division by zero" rfl rfl
  exact ⟨h1, h2⟩

/-- C7: when the planner delivers a plan whose root `agent_type` is the
unsupported string `"Unknown"`, construction fails: the result is an
`error` response whose `final_content` is exactly
`"Failed to build or execute dynamic workflow: Unknown agent type:
Unknown"` (which contains `"Unknown agent type: Unknown"`), and no
agent of the plan is executed — whatever building-and-running the plan
would have done. -/
theorem dwa_unknown_agent_type (run_plan : RawWorkflowPlan → AgentResponse × Bool)
    (func_args : RawWorkflowPlan)
    (h : func_args.root_agent.agent_type = "Unknown") :
    DynamicWorkflowAgent.execute run_plan (.toolCall "create_workflow_plan" func_args) =
      (⟨"error",
        .str "Failed to build or execute dynamic workflow: Unknown agent type: Unknown",
        Option.none⟩, false) := by
  obtain ⟨mt, wd, root⟩ := func_args
  obtain ⟨atype, aname, children, child⟩ := root
  simp only [RawAgentConfig.agent_type] at h
  subst h
  simp [DynamicWorkflowAgent.execute, plan_validate, plan_errors,
    RawAgentConfig.collect_type_errors, allowed_agent_types, RawAgentConfig.agent_type]

/-- Witness for C7 at a concrete `"Unknown"`-rooted plan. -/
theorem dwa_unknown_agent_type_witness :
    DynamicWorkflowAgent.execute c7RunPlan (.toolCall "create_workflow_plan" c7Plan) =
      (⟨"error",
        .str "Failed to build or execute dynamic workflow: Unknown agent type: Unknown",
        Option.none⟩, false) :=
  dwa_unknown_agent_type c7RunPlan c7Plan rfl

/-- C9: structured-output validation is idempotent — for an agent with
a configured output structure, any content that validates successfully
yields a serialized payload that itself validates successfully to the
very same payload. -/
theorem validate_structured_output_idempotent (cls : PydanticModelClass)
    (content out : String)
    (h : validate_structured_output (some cls) content = Except.ok out) :
    validate_structured_output (some cls) out = Except.ok out := by
  simp only [validate_structured_output] at h ⊢
  cases hv : cls.model_validate_json content with
  | error e => rw [hv] at h; simp at h
  | ok m =>
    rw [hv] at h
    simp only [Except.ok.injEq] at h
    subst h
    rw [cls.dump_validate content m hv]

/-- Witness for C9: `"True"` validates to the canonical payload
`"true"`, and validating `"true"` again returns `"true"` itself. -/
theorem validate_structured_output_idempotent_witness :
    validate_structured_output (some boolClass) "true" = Except.ok "true" :=
  validate_structured_output_idempotent boolClass "True" "true" (by
    simp [validate_structured_output, boolClass])

/-- C2 (code bug): on a terminal branch — here the model returns a
recognized final answer on the first iteration — the copy-back
`_sync_history_to_state` does not append the new messages to the shared
history: it raises `AttributeError`, because it reads `msg.tool_calls`
from `ChatMessage`s that have no such field (and passes keyword
arguments `SessionState.add_message` does not accept); moreover the
slice it would copy, `execution_history[initial_history_len:]` of
`[system] + history`, is off by one and starts at the last pre-existing
message.  The whole `execute` call therefore raises instead of
returning. -/
theorem react_execute_sync_raises :
    c2Agent.execute c2State =
      Except.error "AttributeError: ChatMessage object has no attribute tool_calls" := rfl

end Astra
